import Mathlib

/-!
Verification of the BADA performance core of `airtrafficsim`
(`airtrafficsim/core/performance/bada.py` and
`airtrafficsim/core/performance/performance.py`).

Per-slot computations in the Python source are numpy element-wise vector
operations (`np.select` / `np.where` with first-match ordering); they are
embedded here as scalar functions of one aircraft slot, with `np.select`
becoming a nested if-then-else chain (first matching condition wins,
`default` as the final else).  Real-valued quantities are embedded as `ℚ`
where the source only uses field arithmetic and comparisons, and as `ℝ`
where the source uses transcendental functions (`cos`, fractional
`np.power`).  The fleet registry (parallel per-aircraft arrays mutated by
`add_aircraft` / `del_aircraft`) is embedded as a structure of `List`s with
explicit error propagation mirroring Python exception semantics: a raised
exception aborts the remaining statements but keeps all mutations already
performed.
-/

namespace ATS

/-- Modelled from the spec: the `VerticalMode` enum of
`airtrafficsim.utils.enums` is not under src/; the spec lists the vertical
modes as {CLIMB, LEVEL, DESCENT}.  Only equality tests on this enum occur in
the embedded code, so the constructor values are immaterial. -/
inductive VerticalMode where
  | CLIMB
  | LEVEL
  | DESCENT
deriving DecidableEq, Repr

/-- Modelled from the spec: the `APSpeedMode` enum of
`airtrafficsim.utils.enums` is not under src/; `bada.py` documents it as
"[1: Constant CAS, 2: Constant Mach, 3: Acceleration, 4: Deceleration]".
Only equality tests occur, so the numeric values are immaterial. -/
inductive APSpeedMode where
  | CONSTANT_CAS
  | CONSTANT_MACH
  | ACCELERATE
  | DECELERATE
deriving DecidableEq, Repr

/-- Modelled from the spec: the `Config` enum of `airtrafficsim.utils.enums`
is not under src/; the spec lists the configurations as
{TAKEOFF, INITIAL_CLIMB, CLEAN, APPROACH, LANDING}.  Only equality tests
occur, so the numeric values are immaterial. -/
inductive Config where
  | TAKEOFF
  | INITIAL_CLIMB
  | CLEAN
  | APPROACH
  | LANDING
deriving DecidableEq, Repr

/-- Modelled from the spec: the `EngineType` enum of
`airtrafficsim.utils.enums` is not under src/; `bada.py` maps the OPF
engine-type strings via `{'Jet': 1, 'Turboprop': 2, 'Piston': 3}`.  Only
equality tests occur, so the numeric values are immaterial. -/
inductive EngineType where
  | JET
  | TURBOPROP
  | PISTON
deriving DecidableEq, Repr

/-- Modelled from the spec: the `FlightPhase` enum of
`airtrafficsim.utils.enums` is not under src/.  The spec lists the phases
"…, CRUISE, DESCENT, APPROACH, LANDING"; `get_procedure_speed` selects its
branch by order comparisons (`flight_phase <= FlightPhase.CLIMB`,
`== CRUISE`, `>= DESCENT`), so the phases are modelled with
CLIMB < CRUISE < DESCENT < APPROACH < LANDING via `FlightPhase.val`. -/
inductive FlightPhase where
  | CLIMB
  | CRUISE
  | DESCENT
  | APPROACH
  | LANDING
deriving DecidableEq, Repr

/-- Order of a flight phase, for the `<=` / `>=` comparisons of
`get_procedure_speed`. -/
def FlightPhase.val : FlightPhase → Nat
  | .CLIMB => 0
  | .CRUISE => 1
  | .DESCENT => 2
  | .APPROACH => 3
  | .LANDING => 4

/-- Global aircraft parameters read from `BADA.GPF` in `Bada.__init__`
(file ingestion is outside the core; the documented default value of each
field is noted).  Only the fields consumed by the embedded functions are
kept. -/
structure GPF where
  /-- Maximum cruise thrust coefficient [0.95] -/
  C_TCR : ℚ
  /-- Maximum altitude threshold for take-off [400 ft] -/
  H_MAX_TO : ℚ
  /-- Maximum altitude threshold for initial climb [2,000 ft] -/
  H_MAX_IC : ℚ
  /-- Maximum altitude threshold for approach [8,000 ft] -/
  H_MAX_AP : ℚ
  /-- Maximum altitude threshold for landing [3,000 ft] -/
  H_MAX_LD : ℚ
  /-- Minimum speed coefficient (all phases except take-off) [1.3] -/
  C_V_MIN : ℚ
deriving Repr

/-- The documented default values of the GPF fields (`bada.py` doc
comments). -/
def gpfDefault : GPF :=
  { C_TCR := 95/100
    H_MAX_TO := 400
    H_MAX_IC := 2000
    H_MAX_AP := 8000
    H_MAX_LD := 3000
    C_V_MIN := 13/10 }

/-- One slot of the per-aircraft coefficient arrays of `Bada`, restricted to
the fields the per-slot computations below consume.  The numpy code applies
each formula element-wise across slots; this structure is one element. -/
structure AcCoeffs where
  engine_type : EngineType
  /-- stall speed (CR) [knots (CAS)] -/
  v_stall_cr : ℚ
  /-- stall speed (AP) [knots (CAS)] -/
  v_stall_ap : ℚ
  /-- 1st maximum climb thrust coefficient -/
  c_tc_1 : ℚ
  /-- 2nd maximum climb thrust coefficient [feet] -/
  c_tc_2 : ℚ
  /-- 3rd maximum climb thrust coefficient -/
  c_tc_3 : ℚ
  /-- 1st thrust temperature coefficient [K] -/
  c_tc_4 : ℚ
  /-- 2nd thrust temperature coefficient [1/K] -/
  c_tc_5 : ℚ
  /-- low altitude descent thrust coefficient -/
  c_tdes_low : ℚ
  /-- high altitude descent thrust coefficient -/
  c_tdes_high : ℚ
  /-- transition altitude for calculation of descent thrust [feet] -/
  h_p_des : ℚ
  /-- approach thrust coefficient -/
  c_tdes_app : ℚ
  /-- landing thrust coefficient -/
  c_tdes_ld : ℚ
  /-- induced drag coefficient (approach) -/
  c_d2_ap : ℚ
  /-- 1st thrust specific fuel consumption coefficient -/
  c_f1 : ℚ
  /-- 2nd thrust specific fuel consumption coefficient [knots] -/
  c_f2 : ℚ
  /-- 1st descent fuel flow coefficient [kg/min] -/
  c_f3 : ℚ
  /-- 2nd descent fuel flow coefficient [feet] -/
  c_f4 : ℚ
  /-- cruise fuel flow correction coefficient -/
  c_fcr : ℚ
  /-- Standard climb CAS schedule row [knots * 8] -/
  climb_schedule : Fin 8 → ℚ
  /-- Standard cruise CAS schedule row [knots * 5] -/
  cruise_schedule : Fin 5 → ℚ
  /-- Standard descent CAS schedule row [knots * 8] -/
  descent_schedule : Fin 8 → ℚ

/-- `Bada.update_configuration(V_cas, H_p, vertical_mode)` (bada.py): the
`np.select` over five ordered conditions with default `Config.CLEAN`,
written per slot.  The grouping of `&` over `|` follows Python operator
precedence: in the fourth condition the second disjunct
`(V_cas < C_V_MIN*v_stall_cr+10) & (V_cas >= C_V_MIN*v_stall_ap+10) &
(H_p <= H_MAX_LD)` is not conjoined with
`vertical_mode == DESCENT`. -/
def update_configuration (g : GPF) (ac : AcCoeffs) (V_cas H_p : ℚ)
    (vertical_mode : VerticalMode) : Config :=
  if vertical_mode = .CLIMB ∧ H_p ≤ g.H_MAX_TO then
    .TAKEOFF
  else if vertical_mode = .CLIMB ∧ H_p > g.H_MAX_TO ∧ H_p < g.H_MAX_IC then
    .INITIAL_CLIMB
  else if H_p > g.H_MAX_IC ∨
      (vertical_mode = .DESCENT ∧ V_cas ≥ g.C_V_MIN * ac.v_stall_cr + 10) then
    .CLEAN
  else if (vertical_mode = .DESCENT ∧
        (V_cas < g.C_V_MIN * ac.v_stall_cr + 10 ∧ H_p > g.H_MAX_LD ∧
          H_p ≤ g.H_MAX_AP)) ∨
      (V_cas < g.C_V_MIN * ac.v_stall_cr + 10 ∧
        V_cas ≥ g.C_V_MIN * ac.v_stall_ap + 10 ∧ H_p ≤ g.H_MAX_LD) then
    .APPROACH
  else if vertical_mode = .DESCENT ∧ H_p < g.H_MAX_LD ∧
      V_cas < g.C_V_MIN * ac.v_stall_ap + 10 then
    .LANDING
  else
    .CLEAN

/-- A concrete coefficient slot used for counterexamples and witnesses:
a JET aircraft with stall speeds v_stall_cr = 100 kt, v_stall_ap = 90 kt
(so the approach speed band at C_V_MIN = 1.3 is [127, 140) kt). -/
def acEx : AcCoeffs :=
  { engine_type := .JET
    v_stall_cr := 100
    v_stall_ap := 90
    c_tc_1 := 140000
    c_tc_2 := 50000
    c_tc_3 := 1/100000000
    c_tc_4 := 10
    c_tc_5 := 1/100
    c_tdes_low := 1/10
    c_tdes_high := 1/5
    h_p_des := 7000
    c_tdes_app := 3/25
    c_tdes_ld := 2/5
    c_d2_ap := 1/20
    c_f1 := 1
    c_f2 := 1000
    c_f3 := 10
    c_f4 := 50000
    c_fcr := 1
    climb_schedule := fun _ => 300
    cruise_schedule := fun _ => 300
    descent_schedule :=
      fun i => [137, 142, 152, 182, 220, 250, 280, 78/100].getD i.val 0 }

/-- The ISA part of `Bada.__cal_max_climb_to_thrust` (bada.py): the
`np.select` over the three engine types (equations 3.7-1~3).  `ℚ` division
by zero is 0 where numpy would produce ±inf (V_tas = 0 for TURBOPROP /
PISTON); no claim below evaluates those branches at V_tas = 0. -/
def thr_max_climb_isa (ac : AcCoeffs) (H_p V_tas : ℚ) : ℚ :=
  match ac.engine_type with
  | .JET => ac.c_tc_1 * (1 - H_p / ac.c_tc_2 + ac.c_tc_3 * H_p ^ 2)
  | .TURBOPROP => ac.c_tc_1 / V_tas * (1 - H_p / ac.c_tc_2) + ac.c_tc_3
  | .PISTON => ac.c_tc_1 * (1 - H_p / ac.c_tc_2) + ac.c_tc_3 / V_tas

/-- `Bada.__cal_max_climb_to_thrust(H_p, V_tas, d_T)` (bada.py): the ISA
polynomial corrected for temperature deviation,
`thr_max_climb_isa * (1 - clip(clip(c_tc_5, 0, None) * (d_T - c_tc_4), 0, 0.4))`
with `np.clip(x, lo, hi) = min (max x lo) hi` and `np.clip(x, lo, None) =
max x lo`. -/
def cal_max_climb_to_thrust (ac : AcCoeffs) (H_p V_tas d_T : ℚ) : ℚ :=
  thr_max_climb_isa ac H_p V_tas *
    (1 - min (max (max ac.c_tc_5 0 * (d_T - ac.c_tc_4)) 0) (2/5))

/-- `Bada.__cal_max_cruise_thrust(Thr_max_climb)` (bada.py), equation
3.7-8. -/
def cal_max_cruise_thrust (g : GPF) (Thr_max_climb : ℚ) : ℚ :=
  g.C_TCR * Thr_max_climb

/-- `Bada.__cal_descent_thrust(H_p, Thr_max_climb, configuration)`
(bada.py): above the transition altitude (clamped up to H_MAX_AP when the
approach drag data is non-zero) the high coefficient applies; below it an
`np.select` over CLEAN / APPROACH / LANDING applies, whose default — hit
for TAKEOFF and INITIAL_CLIMB configurations — is `np.select`'s implicit
0. -/
def cal_descent_thrust (g : GPF) (ac : AcCoeffs) (H_p Thr_max_climb : ℚ)
    (configuration : Config) : ℚ :=
  if H_p > (if ac.c_d2_ap ≠ 0 then max ac.h_p_des g.H_MAX_AP else ac.h_p_des)
    then ac.c_tdes_high * Thr_max_climb
  else if configuration = .CLEAN then ac.c_tdes_low * Thr_max_climb
  else if configuration = .APPROACH then ac.c_tdes_app * Thr_max_climb
  else if configuration = .LANDING then ac.c_tdes_ld * Thr_max_climb
  else 0

/-- `Bada.cal_thrust(vertical_mode, configuration, H_p, V_tas, d_T, drag,
ap_speed_mode)` (bada.py): `np.select` over the three regimes, first match
wins, implicit default 0. -/
def cal_thrust (g : GPF) (ac : AcCoeffs) (vertical_mode : VerticalMode)
    (configuration : Config) (H_p V_tas d_T drag : ℚ)
    (ap_speed_mode : APSpeedMode) : ℚ :=
  if vertical_mode = .CLIMB ∨
      (vertical_mode = .LEVEL ∧ ap_speed_mode = .ACCELERATE) then
    cal_max_climb_to_thrust ac H_p V_tas d_T
  else if vertical_mode = .LEVEL ∧
      (ap_speed_mode = .CONSTANT_CAS ∨ ap_speed_mode = .CONSTANT_MACH) then
    min drag (cal_max_cruise_thrust g (cal_max_climb_to_thrust ac H_p V_tas d_T))
  else if vertical_mode = .DESCENT ∨
      (vertical_mode = .LEVEL ∧ ap_speed_mode = .DECELERATE) then
    cal_descent_thrust g ac H_p (cal_max_climb_to_thrust ac H_p V_tas d_T)
      configuration
  else 0

/-- `Bada.__cal_nominal_fuel_flow(V_tas, Thr)` (bada.py), equations
3.9-1~3 and 3.9-7 [kg/min]. -/
def cal_nominal_fuel_flow (ac : AcCoeffs) (V_tas Thr : ℚ) : ℚ :=
  match ac.engine_type with
  | .JET => ac.c_f1 * (1 + V_tas / ac.c_f2) * Thr
  | .TURBOPROP => ac.c_f1 * (1 - V_tas / ac.c_f2) * (V_tas / 1000) * Thr
  | .PISTON => ac.c_f1

/-- `Bada.__cal_minimum_fuel_flow(H_p)` (bada.py), equations 3.9-4 and
3.9-8 [kg/min]. -/
def cal_minimum_fuel_flow (ac : AcCoeffs) (H_p : ℚ) : ℚ :=
  if ac.engine_type ≠ .PISTON then ac.c_f3 * (1 - H_p / ac.c_f4)
  else ac.c_f3

/-- `Bada.__cal_approach_landing_fuel_flow(V_tas, Thr, H_p)` (bada.py),
equations 3.9-5 and 3.9-8 [kg/min]. -/
def cal_approach_landing_fuel_flow (ac : AcCoeffs) (V_tas Thr H_p : ℚ) : ℚ :=
  if ac.engine_type ≠ .PISTON then
    max (cal_nominal_fuel_flow ac V_tas Thr) (cal_minimum_fuel_flow ac H_p)
  else cal_minimum_fuel_flow ac H_p

/-- `Bada.__cal_cruise_fuel_flow(V_tas, Thr)` (bada.py), equations 3.9-6
and 3.9-9 [kg/min]. -/
def cal_cruise_fuel_flow (ac : AcCoeffs) (V_tas Thr : ℚ) : ℚ :=
  match ac.engine_type with
  | .JET => ac.c_f1 * (1 + V_tas / ac.c_f2) * Thr * ac.c_fcr
  | .TURBOPROP => ac.c_f1 * (1 - V_tas / ac.c_f2) * (V_tas / 1000) * Thr * ac.c_fcr
  | .PISTON => ac.c_f1 * ac.c_fcr

/-- `Bada.cal_fuel_burn(flight_phase, tas, thrust, alt)` (bada.py):
`np.select` over the flight phase.  The source computes the unused local
`a = nominal/60.0` before the select; it has no effect and is omitted.
Note the LANDING choice passes `alt/60000.0` as the altitude argument and
does not divide the result by 60000, unlike the APPROACH choice. -/
def cal_fuel_burn (ac : AcCoeffs) (flight_phase : FlightPhase)
    (tas thrust alt : ℚ) : ℚ :=
  if flight_phase = .CRUISE then cal_cruise_fuel_flow ac tas thrust / 60000
  else if flight_phase = .DESCENT then cal_minimum_fuel_flow ac alt / 60000
  else if flight_phase = .APPROACH then
    cal_approach_landing_fuel_flow ac tas thrust alt / 60000
  else if flight_phase = .LANDING then
    cal_approach_landing_fuel_flow ac tas thrust (alt / 60000)
  else cal_nominal_fuel_flow ac tas thrust / 60000

/-- `Bada.get_procedure_speed(H_p, H_p_trans, flight_phase)` (bada.py):
outer `np.select` over the flight phase (`<= CLIMB`, `== CRUISE`,
`>= DESCENT`), inner `np.where` over engine type and `np.select` over the
altitude bands; every `np.select` has implicit default 0.  The first
descent band for jet/turboprop is `H_p < 999` while the second starts at
`H_p >= 1000`, so altitudes in [999, 1000) hit no band. -/
def get_procedure_speed (ac : AcCoeffs) (H_p H_p_trans : ℚ)
    (flight_phase : FlightPhase) : ℚ :=
  if flight_phase.val ≤ FlightPhase.CLIMB.val then
    if ac.engine_type = .JET then
      if H_p < 1500 then ac.climb_schedule 0
      else if 1500 ≤ H_p ∧ H_p < 3000 then ac.climb_schedule 1
      else if 3000 ≤ H_p ∧ H_p < 4000 then ac.climb_schedule 2
      else if 4000 ≤ H_p ∧ H_p < 5000 then ac.climb_schedule 3
      else if 5000 ≤ H_p ∧ H_p < 6000 then ac.climb_schedule 4
      else if 6000 ≤ H_p ∧ H_p < 10000 then ac.climb_schedule 5
      else if 10000 ≤ H_p ∧ H_p < H_p_trans then ac.climb_schedule 6
      else if H_p_trans ≤ H_p then ac.climb_schedule 7
      else 0
    else
      if H_p < 500 then ac.climb_schedule 0
      else if 500 ≤ H_p ∧ H_p < 1000 then ac.climb_schedule 1
      else if 1000 ≤ H_p ∧ H_p < 1500 then ac.climb_schedule 2
      else if 1500 ≤ H_p ∧ H_p < 10000 then ac.climb_schedule 3
      else if 10000 ≤ H_p ∧ H_p < H_p_trans then ac.climb_schedule 4
      else if H_p_trans ≤ H_p then ac.climb_schedule 5
      else 0
  else if flight_phase = .CRUISE then
    if ac.engine_type = .JET then
      if H_p < 3000 then ac.cruise_schedule 0
      else if 3000 ≤ H_p ∧ H_p < 6000 then ac.cruise_schedule 1
      else if 6000 ≤ H_p ∧ H_p < 14000 then ac.cruise_schedule 2
      else if 14000 ≤ H_p ∧ H_p < H_p_trans then ac.cruise_schedule 3
      else if H_p_trans ≤ H_p then ac.cruise_schedule 4
      else 0
    else
      if H_p < 3000 then ac.cruise_schedule 0
      else if 3000 ≤ H_p ∧ H_p < 6000 then ac.cruise_schedule 1
      else if 6000 ≤ H_p ∧ H_p < 10000 then ac.cruise_schedule 2
      else if 10000 ≤ H_p ∧ H_p < H_p_trans then ac.cruise_schedule 3
      else if H_p_trans ≤ H_p then ac.cruise_schedule 4
      else 0
  else if FlightPhase.DESCENT.val ≤ flight_phase.val then
    if ac.engine_type ≠ .PISTON then
      if H_p < 999 then ac.descent_schedule 0
      else if 1000 ≤ H_p ∧ H_p < 1500 then ac.descent_schedule 1
      else if 1500 ≤ H_p ∧ H_p < 2000 then ac.descent_schedule 2
      else if 2000 ≤ H_p ∧ H_p < 3000 then ac.descent_schedule 3
      else if 3000 ≤ H_p ∧ H_p < 6000 then ac.descent_schedule 4
      else if 6000 ≤ H_p ∧ H_p < 10000 then ac.descent_schedule 5
      else if 10000 ≤ H_p ∧ H_p < H_p_trans then ac.descent_schedule 6
      else if H_p_trans ≤ H_p then ac.descent_schedule 7
      else 0
    else
      if H_p < 500 then ac.descent_schedule 0
      else if 500 ≤ H_p ∧ H_p < 1000 then ac.descent_schedule 1
      else if 1000 ≤ H_p ∧ H_p < 1500 then ac.descent_schedule 2
      else if 1500 ≤ H_p ∧ H_p < 10000 then ac.descent_schedule 3
      else if 10000 ≤ H_p ∧ H_p < H_p_trans then ac.descent_schedule 4
      else if H_p_trans ≤ H_p then ac.descent_schedule 5
      else 0
  else 0

/-- `Performance.__P_0` / `Bada.__P_0`: standard atmospheric pressure at
MSL [Pa]. -/
noncomputable def P_0 : ℝ := 101325

/-- `Performance.__RHO_0` / `Bada.__RHO_0`: standard atmospheric density at
MSL [kg/m^3]. -/
noncomputable def RHO_0 : ℝ := 1.225

/-- `Performance.__KAPPA` / `Bada.__KAPPA`: adiabatic index of air. -/
noncomputable def KAPPA : ℝ := 1.4

/-- `Performance.__G_0` / `Bada.__G_0`: gravitational acceleration
[m/s^2]. -/
noncomputable def G_0 : ℝ := 9.80665

/-- The local variable `mu = (self.__KAPPA - 1) / self.__KAPPA` of
`Performance.cas_to_tas` / `tas_to_cas` (performance.py). -/
noncomputable def MU : ℝ := (KAPPA - 1) / KAPPA

/-- `Performance.cas_to_tas(V_cas, p, rho)` (performance.py, equation
3.1-23): closed-form compressible-flow conversion, with `np.power` as real
exponentiation. -/
noncomputable def cas_to_tas (V_cas p rho : ℝ) : ℝ :=
  (2 / MU * (p / rho) *
      ((1 + P_0 / p *
          ((1 + MU / 2 * (RHO_0 / P_0) * V_cas ^ 2) ^ (1 / MU) - 1)) ^ MU
        - 1)) ^ (0.5 : ℝ)

/-- `Performance.tas_to_cas(V_tas, p, rho)` (performance.py, equation
3.1-24). -/
noncomputable def tas_to_cas (V_tas p rho : ℝ) : ℝ :=
  (2 / MU * (P_0 / RHO_0) *
      ((1 + p / P_0 *
          ((1 + MU / 2 * (rho / p) * V_tas ^ 2) ^ (1 / MU) - 1)) ^ MU
        - 1)) ^ (0.5 : ℝ)

/-- The aerodynamic per-slot coefficients of `Bada` consumed by
`cal_aerodynamic_drag`, over `ℝ` (the drag computation involves `cos`). -/
structure AcCoeffsAero where
  /-- reference wing surface area [m^2] -/
  S : ℝ
  /-- parasitic drag coefficient (cruise) -/
  c_d0_cr : ℝ
  /-- induced drag coefficient (cruise) -/
  c_d2_cr : ℝ
  /-- parasitic drag coefficient (approach) -/
  c_d0_ap : ℝ
  /-- induced drag coefficient (approach) -/
  c_d2_ap : ℝ
  /-- parasitic drag coefficient (landing) -/
  c_d0_ld : ℝ
  /-- induced drag coefficient (landing) -/
  c_d2_ld : ℝ
  /-- parasitic drag coefficient (landing gear) -/
  c_d0_ldg : ℝ

/-- `Performance.cal_aerodynamic_drag` is named `cal_aerodynamic_drag` in
`Bada` (bada.py, section 3.6.1).  Embedded over `ℝ` because of
`np.cos(np.deg2rad(bank_angle))`; in both numpy and Mathlib the
division-by-zero lift coefficient at V_tas = 0 is irrelevant to the result
because the final `np.where(V_tas == 0.0, 0.0, …)` guard selects 0 there. -/
noncomputable def cal_aerodynamic_drag (ac : AcCoeffsAero)
    (V_tas bank_angle m rho : ℝ) (configuration : Config)
    (c_des_exp : ℝ) : ℝ :=
  let c_L := 2 * m * G_0 / rho / V_tas ^ 2 / ac.S /
    Real.cos (bank_angle * (Real.pi / 180))
  let c_D :=
    if configuration = .APPROACH then
      if ac.c_d2_ap ≠ 0 then ac.c_d0_ap + ac.c_d2_ap * c_L ^ 2
      else ac.c_d0_cr + ac.c_d2_cr * c_L ^ 2
    else if configuration = .LANDING then
      if ac.c_d2_ld ≠ 0 then ac.c_d0_ld + ac.c_d0_ldg + ac.c_d2_ld * c_L ^ 2
      else ac.c_d0_cr + ac.c_d2_cr * c_L ^ 2
    else ac.c_d0_cr + ac.c_d2_cr * c_L ^ 2
  if V_tas = 0 then 0 else c_D * rho * V_tas ^ 2 * ac.S / 2 * c_des_exp

/-- Python exception classes surfacing in the embedded code.  In Python,
`IndexError` and `KeyError` are subclasses of `LookupError`. -/
inductive PyError where
  | indexError
  | keyError
  | osError
deriving DecidableEq, Repr

/-- Whether the raised exception is (a subclass of) `LookupError`. -/
def PyError.isLookupError : PyError → Bool
  | .indexError => true
  | .keyError => true
  | .osError => false

/-- One row of the `SYNONYM.NEW` table read in `Bada.__init__`, restricted
to the two columns `add_aircraft` consumes: the aircraft code (`ACCODE`)
and the performance file name (`FILENAME`, column 5). -/
structure SynonymRow where
  accode : String
  filename : String
deriving DecidableEq, Repr

/-- Content of one `.OPF` file as `add_aircraft` reads it: the aircraft
type block (`OPF_Actype`) and the numeric grid `OPF[i][j]`. -/
structure OpfFile where
  /-- `OPF_Actype.item()[2]`: number of engines -/
  n_eng : ℚ
  /-- `OPF_Actype.item()[4]`: engine type string -/
  engine_type : String
  /-- `OPF_Actype.item()[5]`: wake category -/
  wake_category : String
  /-- `OPF[i][j]` -/
  data : Nat → Nat → ℚ

/-- The file system the data-loading calls of `add_aircraft` read from
(file ingestion is outside the core; reads are modelled as total maps from
file name to contents — missing-file I/O errors are outside the claims,
which are about the synonym lookup). -/
structure BadaFiles where
  opf : String → OpfFile
  /-- `APF[row][col]` for a given file name -/
  apf : String → Nat → Nat → ℚ

/-- `{'Jet': 1, 'Turboprop': 2, 'Piston': 3}.get(...)` in `add_aircraft`.
A missing key yields Python `None`, which `np.append` stores as NaN; NaN
has no `ℚ` counterpart and the stored value is irrelevant to the
fleet-registry claims, so 0 stands in. -/
def engineTypeCode (s : String) : ℚ :=
  if s = "Jet" then 1 else if s = "Turboprop" then 2
  else if s = "Piston" then 3 else 0

/-- The per-aircraft parallel arrays of `Bada` (`Bada.__init__`, bada.py):
every coefficient column, the three schedule tables, and the synonym table
read at start-up.  All arrays start empty (`np.zeros([0])`). -/
structure BadaState where
  n_eng : List ℚ
  engine_type : List ℚ
  wake_category : List String
  m_ref : List ℚ
  m_min : List ℚ
  m_max : List ℚ
  m_pyld : List ℚ
  v_mo : List ℚ
  m_mo : List ℚ
  h_mo : List ℚ
  h_max : List ℚ
  g_w : List ℚ
  g_t : List ℚ
  S : List ℚ
  c_d0_cr : List ℚ
  c_d2_cr : List ℚ
  c_d0_ap : List ℚ
  c_d2_ap : List ℚ
  c_d0_ld : List ℚ
  c_d2_ld : List ℚ
  c_d0_ldg : List ℚ
  v_stall_to : List ℚ
  v_stall_ic : List ℚ
  v_stall_cr : List ℚ
  v_stall_ap : List ℚ
  v_stall_ld : List ℚ
  c_lbo : List ℚ
  k : List ℚ
  c_tc_1 : List ℚ
  c_tc_2 : List ℚ
  c_tc_3 : List ℚ
  c_tc_4 : List ℚ
  c_tc_5 : List ℚ
  c_tdes_low : List ℚ
  c_tdes_high : List ℚ
  h_p_des : List ℚ
  c_tdes_app : List ℚ
  c_tdes_ld : List ℚ
  v_des_ref : List ℚ
  m_des_ref : List ℚ
  c_f1 : List ℚ
  c_f2 : List ℚ
  c_f3 : List ℚ
  c_f4 : List ℚ
  c_fcr : List ℚ
  tol : List ℚ
  ldl : List ℚ
  span : List ℚ
  length : List ℚ
  v_cl_1 : List ℚ
  v_cl_2 : List ℚ
  m_cl : List ℚ
  v_cr_1 : List ℚ
  v_cr_2 : List ℚ
  m_cr : List ℚ
  v_des_1 : List ℚ
  v_des_2 : List ℚ
  m_des : List ℚ
  climb_schedule : List (List ℚ)
  cruise_schedule : List (List ℚ)
  descent_schedule : List (List ℚ)
  SYNONYM : List SynonymRow
deriving DecidableEq

/-- `Bada.add_aircraft(icao, mass_class)` (bada.py).  The synonym lookup
`np.where(SYNONYM['ACCODE'] == icao)[0][0]` raises `IndexError` (a
`LookupError`) when no row matches, before any array is mutated; otherwise
one value is appended (`np.append`) to every per-aircraft array.  The `if
not file_name: print(...)` branch only prints and does not alter state.
Python exception semantics: on the error path the returned state is the
(unchanged) state at the raise. -/
def Bada.add_aircraft (files : BadaFiles) (s : BadaState) (icao : String)
    (mass_class : Nat) : BadaState × Option PyError :=
  match s.SYNONYM.find? (fun r => r.accode = icao) with
  | none => (s, some .indexError)
  | some row =>
    let file_name := row.filename
    let Actype := files.opf file_name
    let OPF := fun i j => (files.opf file_name).data i j
    let APF := files.apf file_name
    ({ s with
        n_eng := s.n_eng ++ [Actype.n_eng]
        engine_type := s.engine_type ++ [engineTypeCode Actype.engine_type]
        wake_category := s.wake_category ++ [Actype.wake_category]
        m_ref := s.m_ref ++ [OPF 0 3]
        m_min := s.m_min ++ [OPF 0 4]
        m_max := s.m_max ++ [OPF 0 5]
        m_pyld := s.m_pyld ++ [OPF 0 6]
        v_mo := s.v_mo ++ [OPF 1 3]
        m_mo := s.m_mo ++ [OPF 1 4]
        h_mo := s.h_mo ++ [OPF 1 5]
        h_max := s.h_max ++ [OPF 1 6]
        g_w := s.g_w ++ [OPF 0 7]
        g_t := s.g_t ++ [OPF 1 7]
        S := s.S ++ [OPF 2 3]
        c_d0_cr := s.c_d0_cr ++ [OPF 3 5]
        c_d2_cr := s.c_d2_cr ++ [OPF 3 6]
        c_d0_ap := s.c_d0_ap ++ [OPF 6 5]
        c_d2_ap := s.c_d2_ap ++ [OPF 6 6]
        c_d0_ld := s.c_d0_ld ++ [OPF 7 5]
        c_d2_ld := s.c_d2_ld ++ [OPF 7 6]
        c_d0_ldg := s.c_d0_ldg ++ [OPF 11 5]
        v_stall_to := s.v_stall_to ++ [OPF 5 4]
        v_stall_ic := s.v_stall_ic ++ [OPF 4 4]
        v_stall_cr := s.v_stall_cr ++ [OPF 3 4]
        v_stall_ap := s.v_stall_ap ++ [OPF 6 4]
        v_stall_ld := s.v_stall_ld ++ [OPF 7 4]
        c_lbo := s.c_lbo ++ [OPF 2 4]
        k := s.k ++ [OPF 2 5]
        c_tc_1 := s.c_tc_1 ++ [OPF 14 3]
        c_tc_2 := s.c_tc_2 ++ [OPF 14 4]
        c_tc_3 := s.c_tc_3 ++ [OPF 14 5]
        c_tc_4 := s.c_tc_4 ++ [OPF 14 6]
        c_tc_5 := s.c_tc_5 ++ [OPF 14 7]
        c_tdes_low := s.c_tdes_low ++ [OPF 15 3]
        c_tdes_high := s.c_tdes_high ++ [OPF 15 4]
        h_p_des := s.h_p_des ++ [OPF 15 5]
        c_tdes_app := s.c_tdes_app ++ [OPF 15 6]
        c_tdes_ld := s.c_tdes_ld ++ [OPF 15 7]
        v_des_ref := s.v_des_ref ++ [OPF 16 3]
        m_des_ref := s.m_des_ref ++ [OPF 16 4]
        c_f1 := s.c_f1 ++ [OPF 17 3]
        c_f2 := s.c_f2 ++ [OPF 17 4]
        c_f3 := s.c_f3 ++ [OPF 18 3]
        c_f4 := s.c_f4 ++ [OPF 18 4]
        c_fcr := s.c_fcr ++ [OPF 19 3]
        tol := s.tol ++ [OPF 20 3]
        ldl := s.ldl ++ [OPF 20 4]
        span := s.span ++ [OPF 20 5]
        length := s.length ++ [OPF 20 6]
        v_cl_1 := s.v_cl_1 ++ [APF mass_class 4]
        v_cl_2 := s.v_cl_2 ++ [APF mass_class 5]
        m_cl := s.m_cl ++ [APF mass_class 6 / 100]
        v_cr_1 := s.v_cr_1 ++ [APF mass_class 9]
        v_cr_2 := s.v_cr_2 ++ [APF mass_class 10]
        m_cr := s.m_cr ++ [APF mass_class 11 / 100]
        v_des_1 := s.v_des_1 ++ [APF mass_class 14]
        v_des_2 := s.v_des_2 ++ [APF mass_class 13]
        m_des := s.m_des ++ [APF mass_class 12 / 100]
        climb_schedule := s.climb_schedule ++ [[0, 0, 0, 0, 0, 0, 0, 0]]
        cruise_schedule := s.cruise_schedule ++ [[0, 0, 0, 0, 0]]
        descent_schedule :=
          s.descent_schedule ++ [[0, 0, 0, 0, 0, 0, 0, 0]] }, none)

/-- `Bada.del_aircraft(index)` (bada.py): `np.delete` of the row at
`index` from every per-aircraft array.  `np.delete` raises `IndexError`
when the index is out of range; the first statement deletes from `n_eng`,
so an out-of-range index fails before any mutation.  All sixty-one
deletions use the same index, and in every state reachable through
`add_aircraft` / `del_aircraft` the arrays have equal lengths, so either
every `np.delete` succeeds or the first one fails. -/
def Bada.del_aircraft (s : BadaState) (index : Nat) :
    BadaState × Option PyError :=
  if index < s.n_eng.length then
    ({ s with
        n_eng := s.n_eng.eraseIdx index
        engine_type := s.engine_type.eraseIdx index
        wake_category := s.wake_category.eraseIdx index
        m_ref := s.m_ref.eraseIdx index
        m_min := s.m_min.eraseIdx index
        m_max := s.m_max.eraseIdx index
        m_pyld := s.m_pyld.eraseIdx index
        v_mo := s.v_mo.eraseIdx index
        m_mo := s.m_mo.eraseIdx index
        h_mo := s.h_mo.eraseIdx index
        h_max := s.h_max.eraseIdx index
        g_w := s.g_w.eraseIdx index
        g_t := s.g_t.eraseIdx index
        S := s.S.eraseIdx index
        c_d0_cr := s.c_d0_cr.eraseIdx index
        c_d2_cr := s.c_d2_cr.eraseIdx index
        c_d0_ap := s.c_d0_ap.eraseIdx index
        c_d2_ap := s.c_d2_ap.eraseIdx index
        c_d0_ld := s.c_d0_ld.eraseIdx index
        c_d2_ld := s.c_d2_ld.eraseIdx index
        c_d0_ldg := s.c_d0_ldg.eraseIdx index
        v_stall_to := s.v_stall_to.eraseIdx index
        v_stall_ic := s.v_stall_ic.eraseIdx index
        v_stall_cr := s.v_stall_cr.eraseIdx index
        v_stall_ap := s.v_stall_ap.eraseIdx index
        v_stall_ld := s.v_stall_ld.eraseIdx index
        c_lbo := s.c_lbo.eraseIdx index
        k := s.k.eraseIdx index
        c_tc_1 := s.c_tc_1.eraseIdx index
        c_tc_2 := s.c_tc_2.eraseIdx index
        c_tc_3 := s.c_tc_3.eraseIdx index
        c_tc_4 := s.c_tc_4.eraseIdx index
        c_tc_5 := s.c_tc_5.eraseIdx index
        c_tdes_low := s.c_tdes_low.eraseIdx index
        c_tdes_high := s.c_tdes_high.eraseIdx index
        h_p_des := s.h_p_des.eraseIdx index
        c_tdes_app := s.c_tdes_app.eraseIdx index
        c_tdes_ld := s.c_tdes_ld.eraseIdx index
        v_des_ref := s.v_des_ref.eraseIdx index
        m_des_ref := s.m_des_ref.eraseIdx index
        c_f1 := s.c_f1.eraseIdx index
        c_f2 := s.c_f2.eraseIdx index
        c_f3 := s.c_f3.eraseIdx index
        c_f4 := s.c_f4.eraseIdx index
        c_fcr := s.c_fcr.eraseIdx index
        tol := s.tol.eraseIdx index
        ldl := s.ldl.eraseIdx index
        span := s.span.eraseIdx index
        length := s.length.eraseIdx index
        v_cl_1 := s.v_cl_1.eraseIdx index
        v_cl_2 := s.v_cl_2.eraseIdx index
        m_cl := s.m_cl.eraseIdx index
        v_cr_1 := s.v_cr_1.eraseIdx index
        v_cr_2 := s.v_cr_2.eraseIdx index
        m_cr := s.m_cr.eraseIdx index
        v_des_1 := s.v_des_1.eraseIdx index
        v_des_2 := s.v_des_2.eraseIdx index
        m_des := s.m_des.eraseIdx index
        climb_schedule := s.climb_schedule.eraseIdx index
        cruise_schedule := s.cruise_schedule.eraseIdx index
        descent_schedule := s.descent_schedule.eraseIdx index }, none)
  else (s, some .indexError)

/-- The `Performance` container (performance.py) in BADA mode: the derived
output arrays and the wrapped `Bada` instance.  The alternate OpenAP
backend is an external collaborator outside the core and is not
modelled. -/
structure PerfState where
  drag : List ℚ
  thrust : List ℚ
  esf : List ℚ
  bada : BadaState
deriving DecidableEq

/-- `Performance.add_aircraft(icao, engine, mass_class)` (performance.py)
in BADA mode: appends 0.0 to `drag`, `thrust` and `esf` first, then calls
`Bada.add_aircraft`.  Python exception semantics: when the Bada call
raises, the three appends already performed persist. -/
def Performance.add_aircraft (files : BadaFiles) (s : PerfState)
    (icao : String) (mass_class : Nat) : PerfState × Option PyError :=
  let s1 := { s with
    drag := s.drag ++ [0]
    thrust := s.thrust ++ [0]
    esf := s.esf ++ [0] }
  let r := Bada.add_aircraft files s.bada icao mass_class
  ({ s1 with bada := r.1 }, r.2)

/-- `Performance.del_aircraft(index)` (performance.py) in BADA mode:
`np.delete` on `drag`, `thrust` and `esf` (an out-of-range index raises at
the first delete, before any mutation; `thrust` and `esf` always have the
same length as `drag`, every `Performance` mutation updating the three
together), then `Bada.del_aircraft`, whose mutations-so-far persist if it
raises. -/
def Performance.del_aircraft (s : PerfState) (index : Nat) :
    PerfState × Option PyError :=
  if index < s.drag.length then
    let s1 := { s with
      drag := s.drag.eraseIdx index
      thrust := s.thrust.eraseIdx index
      esf := s.esf.eraseIdx index }
    let r := Bada.del_aircraft s.bada index
    ({ s1 with bada := r.1 }, r.2)
  else (s, some .indexError)

/-- All per-aircraft coefficient and schedule arrays of a `BadaState` have
length `n`. -/
def BadaState.lengthsOk (b : BadaState) (n : Nat) : Prop :=
  b.n_eng.length = n ∧ b.engine_type.length = n ∧
  b.wake_category.length = n ∧ b.m_ref.length = n ∧ b.m_min.length = n ∧
  b.m_max.length = n ∧ b.m_pyld.length = n ∧ b.v_mo.length = n ∧
  b.m_mo.length = n ∧ b.h_mo.length = n ∧ b.h_max.length = n ∧
  b.g_w.length = n ∧ b.g_t.length = n ∧ b.S.length = n ∧
  b.c_d0_cr.length = n ∧ b.c_d2_cr.length = n ∧ b.c_d0_ap.length = n ∧
  b.c_d2_ap.length = n ∧ b.c_d0_ld.length = n ∧ b.c_d2_ld.length = n ∧
  b.c_d0_ldg.length = n ∧ b.v_stall_to.length = n ∧
  b.v_stall_ic.length = n ∧ b.v_stall_cr.length = n ∧
  b.v_stall_ap.length = n ∧ b.v_stall_ld.length = n ∧ b.c_lbo.length = n ∧
  b.k.length = n ∧ b.c_tc_1.length = n ∧ b.c_tc_2.length = n ∧
  b.c_tc_3.length = n ∧ b.c_tc_4.length = n ∧ b.c_tc_5.length = n ∧
  b.c_tdes_low.length = n ∧ b.c_tdes_high.length = n ∧
  b.h_p_des.length = n ∧ b.c_tdes_app.length = n ∧
  b.c_tdes_ld.length = n ∧ b.v_des_ref.length = n ∧
  b.m_des_ref.length = n ∧ b.c_f1.length = n ∧ b.c_f2.length = n ∧
  b.c_f3.length = n ∧ b.c_f4.length = n ∧ b.c_fcr.length = n ∧
  b.tol.length = n ∧ b.ldl.length = n ∧ b.span.length = n ∧
  b.length.length = n ∧ b.v_cl_1.length = n ∧ b.v_cl_2.length = n ∧
  b.m_cl.length = n ∧ b.v_cr_1.length = n ∧ b.v_cr_2.length = n ∧
  b.m_cr.length = n ∧ b.v_des_1.length = n ∧ b.v_des_2.length = n ∧
  b.m_des.length = n ∧ b.climb_schedule.length = n ∧
  b.cruise_schedule.length = n ∧ b.descent_schedule.length = n

/-- Every per-aircraft array of the fleet — the derived outputs and all
Bada coefficient/schedule arrays — has the same length (one row per
slot). -/
def PerfState.sameLengths (s : PerfState) : Prop :=
  s.thrust.length = s.drag.length ∧ s.esf.length = s.drag.length ∧
    s.bada.lengthsOk s.drag.length

instance (b : BadaState) (n : Nat) : Decidable (b.lengthsOk n) := by
  unfold BadaState.lengthsOk
  infer_instance

instance (s : PerfState) : Decidable s.sameLengths := by
  unfold PerfState.sameLengths
  infer_instance

/-- One fleet mutation. -/
inductive FleetOp where
  | add (icao : String) (mass_class : Nat)
  | del (index : Nat)

/-- Apply one fleet mutation through the `Performance` layer. -/
def applyOp (files : BadaFiles) (s : PerfState) : FleetOp →
    PerfState × Option PyError
  | .add icao mass_class => Performance.add_aircraft files s icao mass_class
  | .del index => Performance.del_aircraft s index

/-- Run a sequence of fleet mutations, keeping the state each call leaves
behind (raised exceptions do not roll mutations back). -/
def runOps (files : BadaFiles) (s : PerfState) : List FleetOp → PerfState
  | [] => s
  | op :: rest => runOps files (applyOp files s op).1 rest

/-- Every call in the sequence succeeds (raises no exception). -/
def opsSucceed (files : BadaFiles) (s : PerfState) : List FleetOp → Bool
  | [] => true
  | op :: rest =>
    (applyOp files s op).2.isNone &&
      opsSucceed files (applyOp files s op).1 rest

/-- The empty fleet: all arrays empty (their `np.zeros([0])` initial
state), with a one-row synonym table knowing only the code "A320". -/
def perf0 : PerfState :=
  { drag := [], thrust := [], esf := []
    bada :=
      { n_eng := [], engine_type := [], wake_category := [], m_ref := []
        m_min := [], m_max := [], m_pyld := [], v_mo := [], m_mo := []
        h_mo := [], h_max := [], g_w := [], g_t := [], S := []
        c_d0_cr := [], c_d2_cr := [], c_d0_ap := [], c_d2_ap := []
        c_d0_ld := [], c_d2_ld := [], c_d0_ldg := [], v_stall_to := []
        v_stall_ic := [], v_stall_cr := [], v_stall_ap := []
        v_stall_ld := [], c_lbo := [], k := [], c_tc_1 := [], c_tc_2 := []
        c_tc_3 := [], c_tc_4 := [], c_tc_5 := [], c_tdes_low := []
        c_tdes_high := [], h_p_des := [], c_tdes_app := []
        c_tdes_ld := [], v_des_ref := [], m_des_ref := [], c_f1 := []
        c_f2 := [], c_f3 := [], c_f4 := [], c_fcr := [], tol := []
        ldl := [], span := [], length := [], v_cl_1 := [], v_cl_2 := []
        m_cl := [], v_cr_1 := [], v_cr_2 := [], m_cr := [], v_des_1 := []
        v_des_2 := [], m_des := [], climb_schedule := []
        cruise_schedule := [], descent_schedule := []
        SYNONYM := [{ accode := "A320", filename := "A320__" }] } }

/-- A concrete file environment for witnesses and counterexamples. -/
def filesEx : BadaFiles :=
  { opf := fun _ =>
      { n_eng := 2, engine_type := "Jet", wake_category := "M"
        data := fun _ _ => 1 }
    apf := fun _ _ _ => 250 }

/-- C1 (counterexample): with the documented GPF defaults and a slot whose
approach speed band is [127, 140) kt, a slot in vertical mode LEVEL at
H_p = 1000 ft and V_cas = 130 kt is classified APPROACH, refuting the claim
that a slot whose vertical_mode is not DESCENT is never classified
APPROACH. -/
theorem update_configuration_level_approach_cex :
    update_configuration gpfDefault acEx 130 1000 .LEVEL = .APPROACH ∧
      VerticalMode.LEVEL ≠ VerticalMode.DESCENT := by
  constructor
  · norm_num [update_configuration, gpfDefault, acEx]
    decide
  · decide

/-- C1 (amended): `update_configuration` returns APPROACH exactly when none
of the TAKEOFF / INITIAL_CLIMB / CLEAN rules matched and either
(DESCENT and V_cas < C_V_MIN·v_stall_cr+10 and H_MAX_LD < H_p ≤ H_MAX_AP)
or (C_V_MIN·v_stall_ap+10 ≤ V_cas < C_V_MIN·v_stall_cr+10 and
H_p ≤ H_MAX_LD); the second disjunct does not require vertical_mode =
DESCENT. -/
theorem update_configuration_approach_iff (g : GPF) (ac : AcCoeffs)
    (V_cas H_p : ℚ) (vm : VerticalMode) :
    update_configuration g ac V_cas H_p vm = .APPROACH ↔
      (¬(vm = .CLIMB ∧ H_p ≤ g.H_MAX_TO) ∧
        ¬(vm = .CLIMB ∧ H_p > g.H_MAX_TO ∧ H_p < g.H_MAX_IC) ∧
        ¬(H_p > g.H_MAX_IC ∨
          (vm = .DESCENT ∧ V_cas ≥ g.C_V_MIN * ac.v_stall_cr + 10)) ∧
        ((vm = .DESCENT ∧
            (V_cas < g.C_V_MIN * ac.v_stall_cr + 10 ∧ H_p > g.H_MAX_LD ∧
              H_p ≤ g.H_MAX_AP)) ∨
          (V_cas < g.C_V_MIN * ac.v_stall_cr + 10 ∧
            V_cas ≥ g.C_V_MIN * ac.v_stall_ap + 10 ∧ H_p ≤ g.H_MAX_LD))) := by
  unfold update_configuration
  split_ifs with h1 h2 h3 h4 h5 <;> simp_all

/-- C2 (code evaluated at the failing input): for a JET slot with c_f1 = 1,
c_f2 = 1000, c_f3 = 10, c_f4 = 50000, at flight phase LANDING, tas = 0 kt,
thrust = 1000 N, alt = 30000 ft, `cal_fuel_burn` evaluates the
approach/landing fuel flow at altitude `alt/60000` without the kg/min →
kg/s division, returning 1000, while the claimed APPROACH-equivalent value
`max(nominal, minimum at alt)/60000` is 1/60. -/
theorem cal_fuel_burn_landing_bug :
    cal_fuel_burn acEx .LANDING 0 1000 30000 =
        cal_approach_landing_fuel_flow acEx 0 1000 (30000 / 60000) ∧
      cal_fuel_burn acEx .LANDING 0 1000 30000 = 1000 ∧
      cal_approach_landing_fuel_flow acEx 0 1000 30000 / 60000 = 1 / 60 := by
  refine ⟨rfl, ?_, ?_⟩ <;>
    · simp [cal_fuel_burn, cal_approach_landing_fuel_flow,
        cal_nominal_fuel_flow, cal_minimum_fuel_flow, acEx]
      norm_num

/-- C3 (counterexample): adding an ICAO code absent from the synonym table
raises (IndexError, a LookupError) but still mutates the fleet: the `drag`
array has grown, refuting "every fleet array is left exactly as it was
before the call". -/
theorem add_aircraft_unknown_mutates_cex :
    (Performance.add_aircraft filesEx perf0 "B744" 2).2 =
        some .indexError ∧
      (Performance.add_aircraft filesEx perf0 "B744" 2).1.drag ≠
        perf0.drag := by
  constructor <;> decide

/-- C3 (amended): when the ICAO code has no matching synonym row,
`Performance.add_aircraft` fails with an IndexError — a subclass of
LookupError — and every Bada coefficient and schedule array is left
unchanged, but the derived-output arrays drag, thrust and esf have each
already gained one zero entry (appended before the lookup), so the call is
not an atomic no-op. -/
theorem add_aircraft_unknown_icao (files : BadaFiles) (s : PerfState)
    (icao : String) (mass_class : Nat)
    (h : s.bada.SYNONYM.find? (fun r => r.accode = icao) = none) :
    (Performance.add_aircraft files s icao mass_class).2 =
        some .indexError ∧
      PyError.isLookupError .indexError = true ∧
      (Performance.add_aircraft files s icao mass_class).1.bada = s.bada ∧
      (Performance.add_aircraft files s icao mass_class).1.drag =
        s.drag ++ [0] ∧
      (Performance.add_aircraft files s icao mass_class).1.thrust =
        s.thrust ++ [0] ∧
      (Performance.add_aircraft files s icao mass_class).1.esf =
        s.esf ++ [0] := by
  simp [Performance.add_aircraft, Bada.add_aircraft, h, PyError.isLookupError]

/-- Witness for the C3 amended theorem at the concrete fleet `perf0` and
code "B744". -/
theorem add_aircraft_unknown_icao_witness :
    perf0.bada.SYNONYM.find? (fun r => r.accode = "B744") = none ∧
      ((Performance.add_aircraft filesEx perf0 "B744" 2).2 =
          some .indexError ∧
        PyError.isLookupError .indexError = true ∧
        (Performance.add_aircraft filesEx perf0 "B744" 2).1.bada =
          perf0.bada ∧
        (Performance.add_aircraft filesEx perf0 "B744" 2).1.drag =
          perf0.drag ++ [0] ∧
        (Performance.add_aircraft filesEx perf0 "B744" 2).1.thrust =
          perf0.thrust ++ [0] ∧
        (Performance.add_aircraft filesEx perf0 "B744" 2).1.esf =
          perf0.esf ++ [0]) :=
  ⟨by decide, add_aircraft_unknown_icao filesEx perf0 "B744" 2 (by decide)⟩

/-- C4 (code evaluated at the failing input): for a jet slot in DESCENT
phase whose descent schedule row has no zero entry, the procedure-speed
lookup at H_p = 999.5 ft (inside the uncovered band [999, 1000)) returns
the `np.select` default 0, which is none of the schedule entries — in
particular not the first descent band value, contradicting "every H_p
below 1000 ft selects the first descent band value". -/
theorem get_procedure_speed_descent_gap_bug :
    get_procedure_speed acEx (1999 / 2) 20000 .DESCENT = 0 ∧
      (∀ i : Fin 8, acEx.descent_schedule i ≠ 0) := by
  constructor
  · norm_num [get_procedure_speed, acEx, FlightPhase.val]
    decide
  · intro i
    fin_cases i <;> norm_num [acEx]

/-- C5: in vertical mode LEVEL with autopilot speed mode CONSTANT_CAS or
CONSTANT_MACH, `cal_thrust` returns `min(drag, C_TCR · max_climb_thrust)`:
cruise thrust equals drag capped at the maximum cruise thrust. -/
theorem cal_thrust_cruise (g : GPF) (ac : AcCoeffs)
    (configuration : Config) (H_p V_tas d_T drag : ℚ) (apm : APSpeedMode)
    (h : apm = .CONSTANT_CAS ∨ apm = .CONSTANT_MACH) :
    cal_thrust g ac .LEVEL configuration H_p V_tas d_T drag apm =
      min drag (g.C_TCR * cal_max_climb_to_thrust ac H_p V_tas d_T) := by
  rcases h with h | h <;> subst h <;>
    simp [cal_thrust, cal_max_cruise_thrust]

/-- Witness for C5 at a concrete LEVEL / CONSTANT_MACH slot. -/
theorem cal_thrust_cruise_witness :
    cal_thrust gpfDefault acEx .LEVEL .CLEAN 30000 230 0 50000
        .CONSTANT_MACH =
      min 50000
        (gpfDefault.C_TCR * cal_max_climb_to_thrust acEx 30000 230 0) :=
  cal_thrust_cruise gpfDefault acEx .CLEAN 30000 230 0 50000 .CONSTANT_MACH
    (Or.inr rfl)

/-- C7: the temperature-correction factor of `cal_max_climb_to_thrust`
equals `1 − clip(clip(c_tc_5, 0, ∞)·(d_T − c_tc_4), 0, 0.4)`, lies in
[0.6, 1], and is exactly 1 (no correction) whenever d_T ≤ c_tc_4. -/
theorem max_climb_thrust_temp_correction (ac : AcCoeffs)
    (H_p V_tas d_T : ℚ) :
    cal_max_climb_to_thrust ac H_p V_tas d_T =
        thr_max_climb_isa ac H_p V_tas *
          (1 - min (max (max ac.c_tc_5 0 * (d_T - ac.c_tc_4)) 0) (2/5)) ∧
      (3/5 : ℚ) ≤
        1 - min (max (max ac.c_tc_5 0 * (d_T - ac.c_tc_4)) 0) (2/5) ∧
      1 - min (max (max ac.c_tc_5 0 * (d_T - ac.c_tc_4)) 0) (2/5) ≤ 1 ∧
      (d_T ≤ ac.c_tc_4 →
        cal_max_climb_to_thrust ac H_p V_tas d_T =
          thr_max_climb_isa ac H_p V_tas) := by
  refine ⟨rfl, ?_, ?_, ?_⟩
  · have h1 : min (max (max ac.c_tc_5 0 * (d_T - ac.c_tc_4)) 0) (2/5) ≤
        2/5 := min_le_right _ _
    linarith
  · have h0 : (0:ℚ) ≤ max (max ac.c_tc_5 0 * (d_T - ac.c_tc_4)) 0 :=
      le_max_right _ _
    have h1 : (0:ℚ) ≤
        min (max (max ac.c_tc_5 0 * (d_T - ac.c_tc_4)) 0) (2/5) :=
      le_min h0 (by norm_num)
    linarith
  · intro h
    have h1 : max ac.c_tc_5 0 * (d_T - ac.c_tc_4) ≤ 0 :=
      mul_nonpos_of_nonneg_of_nonpos (le_max_right _ _) (by linarith)
    have h2 : max (max ac.c_tc_5 0 * (d_T - ac.c_tc_4)) 0 = 0 :=
      max_eq_right h1
    unfold cal_max_climb_to_thrust
    rw [h2]
    norm_num

/-- Witness for C7: at d_T = 0 ≤ c_tc_4 = 10 the correction vanishes. -/
theorem max_climb_thrust_temp_correction_witness :
    (0:ℚ) ≤ acEx.c_tc_4 ∧
      cal_max_climb_to_thrust acEx 30000 230 0 =
        thr_max_climb_isa acEx 30000 230 :=
  ⟨by norm_num [acEx],
    (max_climb_thrust_temp_correction acEx 30000 230 0).2.2.2
      (by norm_num [acEx])⟩

/-- C9: with V_tas = 0 the drag force is exactly 0 for every
configuration, mass, density, bank angle and expedite factor — the final
`np.where(V_tas == 0.0, 0.0, …)` guard makes the divided-by-V_tas² lift
coefficient unreachable in the result. -/
theorem cal_aerodynamic_drag_zero_tas (ac : AcCoeffsAero)
    (bank_angle m rho : ℝ) (configuration : Config) (c_des_exp : ℝ) :
    cal_aerodynamic_drag ac 0 bank_angle m rho configuration c_des_exp =
      0 := by
  simp [cal_aerodynamic_drag]

/-- C10: in a descent-thrust regime (DESCENT, or LEVEL with DECELERATE),
a slot whose configuration is TAKEOFF or INITIAL_CLIMB at or below the
(clamped) descent transition altitude gets exactly 0 thrust: the inner
`np.select` only handles CLEAN / APPROACH / LANDING and falls through to
its implicit default 0. -/
theorem cal_thrust_descent_takeoff_zero (g : GPF) (ac : AcCoeffs)
    (vm : VerticalMode) (configuration : Config) (H_p V_tas d_T drag : ℚ)
    (apm : APSpeedMode)
    (hvm : vm = .DESCENT ∨ (vm = .LEVEL ∧ apm = .DECELERATE))
    (hcfg : configuration = .TAKEOFF ∨ configuration = .INITIAL_CLIMB)
    (hH : H_p ≤
      (if ac.c_d2_ap ≠ 0 then max ac.h_p_des g.H_MAX_AP else ac.h_p_des)) :
    cal_thrust g ac vm configuration H_p V_tas d_T drag apm = 0 := by
  have hlt : ¬ H_p >
      (if ac.c_d2_ap ≠ 0 then max ac.h_p_des g.H_MAX_AP else ac.h_p_des) :=
    not_lt.mpr hH
  rcases hvm with h | ⟨h, ha⟩ <;> subst h <;>
    rcases hcfg with hc | hc <;> subst hc <;>
      simp_all [cal_thrust, cal_descent_thrust]

/-- Witness for C10 at a concrete DESCENT / TAKEOFF-configuration slot
below the clamped transition altitude. -/
theorem cal_thrust_descent_takeoff_zero_witness :
    ((5000:ℚ) ≤
        (if acEx.c_d2_ap ≠ 0 then max acEx.h_p_des gpfDefault.H_MAX_AP
          else acEx.h_p_des)) ∧
      cal_thrust gpfDefault acEx .DESCENT .TAKEOFF 5000 230 0 50000
        .CONSTANT_CAS = 0 :=
  ⟨by norm_num [acEx, gpfDefault],
    cal_thrust_descent_takeoff_zero gpfDefault acEx .DESCENT .TAKEOFF 5000
      230 0 50000 .CONSTANT_CAS (Or.inl rfl) (Or.inl rfl)
      (by norm_num [acEx, gpfDefault])⟩

set_option maxHeartbeats 2000000 in
/-- Helper for C6: a successful `Performance.add_aircraft` call preserves
the equal-lengths invariant (every array grows by exactly one row). -/
theorem sameLengths_applyAdd (files : BadaFiles) (s : PerfState)
    (icao : String) (mass_class : Nat) (h : s.sameLengths)
    (hs : (Performance.add_aircraft files s icao mass_class).2 = none) :
    (Performance.add_aircraft files s icao mass_class).1.sameLengths := by
  cases hfind : s.bada.SYNONYM.find? (fun r => r.accode = icao) with
  | none =>
    simp [Performance.add_aircraft, Bada.add_aircraft, hfind] at hs
  | some row =>
    obtain ⟨ht, he, q1, q2, q3, q4, q5, q6, q7, q8, q9, q10, q11, q12,
      q13, q14, q15, q16, q17, q18, q19, q20, q21, q22, q23, q24, q25,
      q26, q27, q28, q29, q30, q31, q32, q33, q34, q35, q36, q37, q38,
      q39, q40, q41, q42, q43, q44, q45, q46, q47, q48, q49, q50, q51,
      q52, q53, q54, q55, q56, q57, q58, q59, q60, q61⟩ := h
    simp only [Performance.add_aircraft, Bada.add_aircraft, hfind,
      PerfState.sameLengths, BadaState.lengthsOk, List.length_append,
      List.length_singleton, ht, he, q1, q2, q3, q4, q5, q6, q7, q8, q9,
      q10, q11, q12, q13, q14, q15, q16, q17, q18, q19, q20, q21, q22,
      q23, q24, q25, q26, q27, q28, q29, q30, q31, q32, q33, q34, q35,
      q36, q37, q38, q39, q40, q41, q42, q43, q44, q45, q46, q47, q48,
      q49, q50, q51, q52, q53, q54, q55, q56, q57, q58, q59, q60, q61,
      and_self]

/-- Helper for C6: a successful `Performance.del_aircraft` call preserves
the equal-lengths invariant (every array shrinks by exactly one row). -/
theorem sameLengths_applyDel (s : PerfState) (index : Nat)
    (h : s.sameLengths)
    (hs : (Performance.del_aircraft s index).2 = none) :
    (Performance.del_aircraft s index).1.sameLengths := by
  by_cases hidx : index < s.drag.length
  · obtain ⟨ht, he, q1, q2, q3, q4, q5, q6, q7, q8, q9, q10, q11, q12,
      q13, q14, q15, q16, q17, q18, q19, q20, q21, q22, q23, q24, q25,
      q26, q27, q28, q29, q30, q31, q32, q33, q34, q35, q36, q37, q38,
      q39, q40, q41, q42, q43, q44, q45, q46, q47, q48, q49, q50, q51,
      q52, q53, q54, q55, q56, q57, q58, q59, q60, q61⟩ := h
    have hn : index < s.bada.n_eng.length := by rw [q1]; exact hidx
    simp only [Performance.del_aircraft, if_pos hidx, Bada.del_aircraft,
      if_pos hn, PerfState.sameLengths, BadaState.lengthsOk]
    simp only [List.length_eraseIdx, ht, he, q1, q2, q3, q4, q5, q6, q7,
      q8, q9, q10, q11, q12, q13, q14, q15, q16, q17, q18, q19, q20, q21,
      q22, q23, q24, q25, q26, q27, q28, q29, q30, q31, q32, q33, q34,
      q35, q36, q37, q38, q39, q40, q41, q42, q43, q44, q45, q46, q47,
      q48, q49, q50, q51, q52, q53, q54, q55, q56, q57, q58, q59, q60,
      q61, hidx, if_true, and_self]
  · simp [Performance.del_aircraft, hidx] at hs

/-- C6 (counterexample): a failed `add_aircraft` (unknown ICAO code)
breaks the equal-lengths invariant — starting from the empty fleet, whose
arrays all have length 0, one failing add leaves `drag`, `thrust` and
`esf` with one row while every Bada coefficient array still has none. -/
theorem fleet_arrays_diverge_on_failed_add_cex :
    perf0.sameLengths ∧
      ¬(runOps filesEx perf0 [.add "B744" 2]).sameLengths := by
  constructor <;> decide

/-- C6 (amended): after any sequence of `add_aircraft` and `del_aircraft`
calls in which every add finds its ICAO code in the synonym table and
every delete index is in range (no call raises), every per-aircraft array
— the coefficient columns, the three schedule tables, and the
derived-output arrays drag, thrust, esf — has the same length, one row
per aircraft slot.  (A call that fails partway breaks the invariant, see
the counterexample.) -/
theorem fleet_arrays_same_length (files : BadaFiles) (ops : List FleetOp)
    (s : PerfState) (h : s.sameLengths)
    (hs : opsSucceed files s ops = true) :
    (runOps files s ops).sameLengths := by
  induction ops generalizing s with
  | nil => simpa [runOps] using h
  | cons op rest ih =>
    simp only [opsSucceed, Bool.and_eq_true] at hs
    obtain ⟨h1, h2⟩ := hs
    have hnone : (applyOp files s op).2 = none :=
      Option.isNone_iff_eq_none.mp h1
    have hstep : (applyOp files s op).1.sameLengths := by
      cases op with
      | add icao mass_class =>
        exact sameLengths_applyAdd files s icao mass_class h hnone
      | del index => exact sameLengths_applyDel s index h hnone
    rw [runOps]
    exact ih _ hstep h2

/-- Witness for C6: from the empty fleet, two successful adds of "A320"
followed by a delete of slot 0 keep all arrays the same length. -/
theorem fleet_arrays_same_length_witness :
    perf0.sameLengths ∧
      opsSucceed filesEx perf0 [.add "A320" 2, .add "A320" 2, .del 0] =
        true ∧
      (runOps filesEx perf0
        [.add "A320" 2, .add "A320" 2, .del 0]).sameLengths :=
  ⟨by decide, by decide,
    fleet_arrays_same_length filesEx [.add "A320" 2, .add "A320" 2, .del 0]
      perf0 (by decide) (by decide)⟩

/-- Helper for C8: at standard MSL conditions (p = P_0, rho = RHO_0) the
CAS→TAS conversion is the identity: the inner `(1 + μ/2·ρ0/P0·V²)^(1/μ)`
and the outer `(…)^μ` cancel exactly and the remaining coefficients
reduce to 1. -/
theorem cas_to_tas_msl (V : ℝ) (h0 : 0 ≤ V) :
    cas_to_tas V P_0 RHO_0 = V := by
  have hmu0 : MU ≠ 0 := by norm_num [MU, KAPPA]
  have hP0 : P_0 ≠ 0 := by norm_num [P_0]
  have hR0 : RHO_0 ≠ 0 := by norm_num [RHO_0]
  have hx : (0:ℝ) ≤ 1 + MU / 2 * (RHO_0 / P_0) * V ^ 2 := by
    have hm : (0:ℝ) ≤ MU := by norm_num [MU, KAPPA]
    have hr : (0:ℝ) ≤ RHO_0 / P_0 := by norm_num [RHO_0, P_0]
    positivity
  unfold cas_to_tas
  rw [div_self hP0, one_mul]
  have h1 : (1:ℝ) + ((1 + MU / 2 * (RHO_0 / P_0) * V ^ 2) ^ (1 / MU) - 1) =
      (1 + MU / 2 * (RHO_0 / P_0) * V ^ 2) ^ (1 / MU) := by ring
  rw [h1]
  have h2 : ((1 + MU / 2 * (RHO_0 / P_0) * V ^ 2) ^ (1 / MU)) ^ MU =
      1 + MU / 2 * (RHO_0 / P_0) * V ^ 2 := by
    rw [← Real.rpow_mul hx, one_div, inv_mul_cancel₀ hmu0, Real.rpow_one]
  rw [h2]
  have h3 : 2 / MU * (P_0 / RHO_0) *
      (1 + MU / 2 * (RHO_0 / P_0) * V ^ 2 - 1) = V ^ 2 := by
    field_simp
    ring
  rw [h3]
  rw [show (0.5:ℝ) = (((2:ℕ):ℝ))⁻¹ by norm_num]
  exact Real.pow_rpow_inv_natCast h0 two_ne_zero

/-- Helper for C8: at MSL the TAS→CAS conversion coincides term for term
with the CAS→TAS conversion (both formulas instantiate `p/ρ` and `ρ/p` to
`P_0/RHO_0` and `RHO_0/P_0`). -/
theorem tas_to_cas_msl_eq (V : ℝ) :
    tas_to_cas V P_0 RHO_0 = cas_to_tas V P_0 RHO_0 := rfl

/-- C8: at standard MSL pressure and density the conversions are exact
algebraic inverses: `tas_to_cas (cas_to_tas V P_0 RHO_0) P_0 RHO_0 = V`
for every V in [0, 400], exactly over the real-valued embedding. -/
theorem tas_cas_roundtrip_msl (V : ℝ) (h0 : 0 ≤ V) (_h400 : V ≤ 400) :
    tas_to_cas (cas_to_tas V P_0 RHO_0) P_0 RHO_0 = V := by
  rw [cas_to_tas_msl V h0, tas_to_cas_msl_eq]
  exact cas_to_tas_msl V h0

/-- Witness for C8 at V = 100. -/
theorem tas_cas_roundtrip_msl_witness :
    (0:ℝ) ≤ 100 ∧ (100:ℝ) ≤ 400 ∧
      tas_to_cas (cas_to_tas 100 P_0 RHO_0) P_0 RHO_0 = 100 :=
  ⟨by norm_num, by norm_num,
    tas_cas_roundtrip_msl 100 (by norm_num) (by norm_num)⟩

end ATS
